import Mathlib

/-!
# Verification of the DemoIADesign photo-editing client and relay

Shallow embedding of the repository's core logic:

* the client-side canvas geometry (`padImageToSquare`, `cropSquareToOriginal`,
  `drawHotspotOnImage`) from `services/geminiService.ts`;
* the request-construction stage of the client service functions
  (`generateEditedImage`, `generatePlacedImage`);
* the serverless relay `api/generate.js` (`handler`, `handleApiResponse`);
* the App component's edit-history state and its handlers from `App.tsx`.

Canvas drawing is modelled over exact rational coordinates: an image is a
sampling function `ℚ → ℚ → RGBA` together with its natural dimensions, and
`drawImage` is exact coordinate transformation (the pad offsets `(S - w) / 2`
can be half-integral, so `ℚ` is the faithful carrier).
-/

set_option autoImplicit false

namespace DemoIA

/-- An RGBA canvas color; channels are rationals (canvas range 0–255,
alpha 0–1). -/
structure RGBA where
  r : ℚ
  g : ℚ
  b : ℚ
  a : ℚ
deriving DecidableEq, Repr

/-- The canvas color `'black'` used by `padImageToSquare`'s `fillRect`. -/
def black : RGBA := ⟨0, 0, 0, 1⟩

/-- The marker fill `'rgba(0, 255, 255, 0.7)'` (bright cyan, alpha 0.7). -/
def cyanMarker : RGBA := ⟨0, 255, 255, 7/10⟩

/-- The marker stroke `'rgba(255, 255, 255, 0.8)'` (white border). -/
def whiteStroke : RGBA := ⟨255, 255, 255, 8/10⟩

/-- Source-over alpha compositing of a translucent source onto a backdrop,
as the canvas `fill`/`stroke` calls perform. -/
def blendOver (src : RGBA) (dst : RGBA) : RGBA :=
  ⟨src.a * src.r + (1 - src.a) * dst.r,
   src.a * src.g + (1 - src.a) * dst.g,
   src.a * src.b + (1 - src.a) * dst.b,
   src.a + (1 - src.a) * dst.a⟩

/-- An image: natural dimensions plus an exact sampling function.  `pix u v`
is the color at continuous position `(u, v)`; only the rectangle
`[0, width) × [0, height)` is meaningful. -/
structure Img where
  width : ℕ
  height : ℕ
  pix : ℚ → ℚ → RGBA

/-- `const size = Math.max(naturalWidth, naturalHeight)` in
`padImageToSquare`. -/
def padSize (img : Img) : ℕ := max img.width img.height

/-- `const x = (size - naturalWidth) / 2` in `padImageToSquare`
(exact, possibly half-integral). -/
def padOffsetX (img : Img) : ℚ := ((padSize img : ℚ) - (img.width : ℚ)) / 2

/-- `const y = (size - naturalHeight) / 2` in `padImageToSquare`. -/
def padOffsetY (img : Img) : ℚ := ((padSize img : ℚ) - (img.height : ℚ)) / 2

/-- Result record of `padImageToSquare`: the padded file and the recorded
original dimensions. -/
structure PadResult where
  file : Img
  originalWidth : ℕ
  originalHeight : ℕ

/-- `padImageToSquare` (geminiService.ts): creates a `size × size` canvas with
`size = max(naturalWidth, naturalHeight)`, fills it black, draws the original
image unscaled at offset `((size - w) / 2, (size - h) / 2)`, and resolves with
the padded file plus `originalWidth`/`originalHeight`. -/
def padImageToSquare (img : Img) : PadResult :=
  let size := padSize img
  let x := padOffsetX img
  let y := padOffsetY img
  { file :=
      { width := size
        height := size
        pix := fun u v =>
          if x ≤ u ∧ u < x + (img.width : ℚ) ∧ y ≤ v ∧ v < y + (img.height : ℚ) then
            img.pix (u - x) (v - y)
          else black }
    originalWidth := img.width
    originalHeight := img.height }

/-- The source rectangle and destination canvas size computed by
`cropSquareToOriginal`. -/
structure CropGeometry where
  sourceX : ℚ
  sourceY : ℚ
  sourceWidth : ℚ
  sourceHeight : ℚ
  destWidth : ℕ
  destHeight : ℕ
deriving DecidableEq, Repr

/-- The arithmetic of `cropSquareToOriginal` (geminiService.ts): with
`newSize` the side of the square returned by the AI and
`originalSize = max(originalWidth, originalHeight)`, it computes
`ratioX = ((originalSize - originalWidth) / 2) / originalSize` (and
similarly `ratioY`, `ratioW`, `ratioH`) and scales them by `newSize`;
the destination canvas is `originalWidth × originalHeight`. -/
def cropGeometry (newSize : ℕ) (originalWidth originalHeight : ℕ) : CropGeometry :=
  let originalSize : ℚ := ((max originalWidth originalHeight : ℕ) : ℚ)
  let ratioX : ℚ := ((originalSize - (originalWidth : ℚ)) / 2) / originalSize
  let ratioY : ℚ := ((originalSize - (originalHeight : ℚ)) / 2) / originalSize
  let ratioW : ℚ := (originalWidth : ℚ) / originalSize
  let ratioH : ℚ := (originalHeight : ℚ) / originalSize
  { sourceX := (newSize : ℚ) * ratioX
    sourceY := (newSize : ℚ) * ratioY
    sourceWidth := (newSize : ℚ) * ratioW
    sourceHeight := (newSize : ℚ) * ratioH
    destWidth := originalWidth
    destHeight := originalHeight }

/-- `cropSquareToOriginal` (geminiService.ts): draws the source rectangle
`(sourceX, sourceY, sourceWidth, sourceHeight)` of the square image onto a
fresh `originalWidth × originalHeight` canvas.  The nine-argument `drawImage`
maps destination position `(u, v)` to source position
`(sourceX + u · sourceWidth / destWidth, sourceY + v · sourceHeight / destHeight)`. -/
def cropSquareToOriginal (sq : Img) (originalWidth originalHeight : ℕ) : Img :=
  let g := cropGeometry sq.width originalWidth originalHeight
  { width := originalWidth
    height := originalHeight
    pix := fun u v =>
      sq.pix (g.sourceX + u * g.sourceWidth / (originalWidth : ℚ))
             (g.sourceY + v * g.sourceHeight / (originalHeight : ℚ)) }

/-- `const radius = Math.min(naturalWidth, naturalHeight) * 0.015` in
`drawHotspotOnImage`. -/
def markerRadius (img : Img) : ℚ := ((min img.width img.height : ℕ) : ℚ) * (15 / 1000)

/-- Membership in the filled marker disc of radius `r` centered at `c`. -/
def inMarkerDisc (c : ℚ × ℚ) (r : ℚ) (u v : ℚ) : Prop :=
  (u - c.1) ^ 2 + (v - c.2) ^ 2 ≤ r ^ 2

instance (c : ℚ × ℚ) (r u v : ℚ) : Decidable (inMarkerDisc c r u v) := by
  unfold inMarkerDisc; infer_instance

/-- Membership in the stroked ring (`lineWidth = 2`, centered on the arc of
radius `r`, hence the annulus of radii `r - 1` to `r + 1`). -/
def inMarkerRing (c : ℚ × ℚ) (r : ℚ) (u v : ℚ) : Prop :=
  (r - 1) ^ 2 ≤ (u - c.1) ^ 2 + (v - c.2) ^ 2 ∧
    (u - c.1) ^ 2 + (v - c.2) ^ 2 ≤ (r + 1) ^ 2

instance (c : ℚ × ℚ) (r u v : ℚ) : Decidable (inMarkerRing c r u v) := by
  unfold inMarkerRing; infer_instance

/-- `drawHotspotOnImage` (geminiService.ts): redraws the image at the same
size, then fills a cyan disc of radius `min(w, h) · 0.015` at the hotspot and
strokes its outline in white with `lineWidth 2`. -/
def drawHotspotOnImage (img : Img) (hotspot : ℚ × ℚ) : Img :=
  let radius := markerRadius img
  { width := img.width
    height := img.height
    pix := fun u v =>
      let filled :=
        if inMarkerDisc hotspot radius u v then blendOver cyanMarker (img.pix u v)
        else img.pix u v
      if inMarkerRing hotspot radius u v then blendOver whiteStroke filled else filled }

/-- The JSON body `generateEditedImage` posts to `/api/generate`
(`type: 'edit'`); `originalImage` is the padded image annotated with the
marker, base64-encoded in the source. -/
structure EditRequestBody where
  type : String
  originalImage : Img
  userPrompt : String
  hotspot : ℚ × ℚ

/-- The request-construction stage of `generateEditedImage`
(geminiService.ts): pad the image to a square, translate the hotspot by the
pad offsets, draw the marker at the translated hotspot, and post
`{ type: 'edit', originalImage, userPrompt, hotspot: paddedHotspot }`. -/
def generateEditedImage (originalImage : Img) (userPrompt : String)
    (hotspot : ℚ × ℚ) : EditRequestBody :=
  let p := padImageToSquare originalImage
  let size : ℚ := ((max p.originalWidth p.originalHeight : ℕ) : ℚ)
  let paddedHotspot : ℚ × ℚ :=
    (hotspot.1 + (size - (p.originalWidth : ℚ)) / 2,
     hotspot.2 + (size - (p.originalHeight : ℚ)) / 2)
  let imageWithHotspot := drawHotspotOnImage p.file paddedHotspot
  { type := "edit"
    originalImage := imageWithHotspot
    userPrompt := userPrompt
    hotspot := paddedHotspot }

/-- The JSON body `generatePlacedImage` posts to `/api/generate`
(`type: 'placement'`). -/
structure PlacementRequestBody where
  type : String
  originalImage : Img
  objectImage : Img
  userPrompt : String
  hotspot : ℚ × ℚ

/-- The request-construction stage of `generatePlacedImage`
(geminiService.ts): identical padding/hotspot translation/marker drawing on
the scene image, plus the object image, posted as `type: 'placement'`. -/
def generatePlacedImage (originalImage : Img) (objectImage : Img)
    (userPrompt : String) (hotspot : ℚ × ℚ) : PlacementRequestBody :=
  let p := padImageToSquare originalImage
  let size : ℚ := ((max p.originalWidth p.originalHeight : ℕ) : ℚ)
  let paddedHotspot : ℚ × ℚ :=
    (hotspot.1 + (size - (p.originalWidth : ℚ)) / 2,
     hotspot.2 + (size - (p.originalHeight : ℚ)) / 2)
  let imageWithHotspot := drawHotspotOnImage p.file paddedHotspot
  { type := "placement"
    originalImage := imageWithHotspot
    objectImage := objectImage
    userPrompt := userPrompt
    hotspot := paddedHotspot }

/-! ## The serverless relay `api/generate.js` -/

/-- JavaScript truthiness of an optional string field (`undefined` and the
empty string are falsy). -/
def truthyStr : Option String → Bool
  | none => false
  | some s => !(s == "")

/-- `inlineData` of a Gemini response part. -/
structure InlineData where
  mimeType : String
  data : String
deriving DecidableEq, Repr

/-- A part of a Gemini candidate's content. -/
structure RespPart where
  inlineData : Option InlineData
  text : Option String
deriving DecidableEq, Repr

/-- `candidates[i].content`. -/
structure RespContent where
  parts : Option (List RespPart)
deriving DecidableEq, Repr

/-- A Gemini response candidate. -/
structure Candidate where
  content : Option RespContent
  finishReason : Option String
deriving DecidableEq, Repr

/-- `response.promptFeedback`. -/
structure PromptFeedback where
  blockReason : Option String
  blockReasonMessage : Option String
deriving DecidableEq, Repr

/-- A `GenerateContentResponse` from the Gemini SDK, with exactly the fields
`handleApiResponse` inspects. -/
structure GenerateContentResponse where
  promptFeedback : Option PromptFeedback
  candidates : Option (List Candidate)
  text : Option String
deriving DecidableEq, Repr

/-- `response.promptFeedback?.blockReason`. -/
def blockReasonOf (r : GenerateContentResponse) : Option String :=
  r.promptFeedback.bind fun pf => pf.blockReason

/-- Truthiness of the block reason, deciding the first branch of
`handleApiResponse`. -/
def isBlocked (r : GenerateContentResponse) : Bool :=
  truthyStr (blockReasonOf r)

/-- `response.candidates?.[0]?.content?.parts?.find(part => part.inlineData)`. -/
def firstImagePart (r : GenerateContentResponse) : Option RespPart :=
  (((r.candidates.bind fun cs => cs.head?).bind fun c => c.content).bind
      fun c => c.parts).bind
    fun ps => ps.find? fun part => part.inlineData.isSome

/-- The inline image data of the first image part, when present. -/
def imageDataOf (r : GenerateContentResponse) : Option InlineData :=
  (firstImagePart r).bind fun p => p.inlineData

/-- `response.candidates?.[0]?.finishReason`. -/
def finishReasonOf (r : GenerateContentResponse) : Option String :=
  (r.candidates.bind fun cs => cs.head?).bind fun c => c.finishReason

/-- `handleApiResponse` (api/generate.js): throws when the prompt was blocked;
otherwise returns a data URL built from the first inline-image part; otherwise
throws, mentioning a non-`'STOP'` finish reason or the response text when
available.  Throwing is modelled as `Except.error` carrying the message. -/
def handleApiResponse (response : GenerateContentResponse) (context : String) :
    Except String String :=
  if isBlocked response then
    .error ("Request was blocked. Reason: " ++ (blockReasonOf response).getD "" ++ ". "
      ++ ((response.promptFeedback.bind fun pf => pf.blockReasonMessage).getD ""))
  else
    match imageDataOf response with
    | some d => .ok ("data:" ++ d.mimeType ++ ";base64," ++ d.data)
    | none =>
        let fr := finishReasonOf response
        if truthyStr fr ∧ fr ≠ some "STOP" then
          .error ("Image generation for " ++ context ++ " stopped unexpectedly. Reason: "
            ++ fr.getD "")
        else
          let textFeedback := (response.text.getD "").trim
          .error ("The AI model did not return an image for the " ++ context ++ ". "
            ++ (if textFeedback ≠ "" then
                  "The model responded with text: \"" ++ textFeedback ++ "\""
                else
                  "This can happen due to safety filters or if the request is too complex."))

/-- The destructured fields of `req.body` in the handler. -/
structure ReqBody where
  type : Option String
  originalImage : Option String
  userPrompt : Option String
  hotspot : Option (ℚ × ℚ)
  filterPrompt : Option String
  adjustmentPrompt : Option String
  objectImage : Option String
deriving DecidableEq, Repr

/-- An incoming HTTP request as the handler sees it. -/
structure HttpRequest where
  method : String
  body : ReqBody
deriving DecidableEq, Repr

/-- The server environment: `process.env.GEMINI_API_KEY`. -/
structure Env where
  geminiApiKey : Option String
deriving DecidableEq, Repr

/-- The data each `handleXRequest` helper sends to
`ai.models.generateContent`, keyed by which helper ran (the long prompt
strings are fixed text around these fields and are not re-transcribed). -/
inductive CallPayload where
  | edit (originalImage : Option String) (userPrompt : Option String)
      (hotspot : Option (ℚ × ℚ))
  | filter (originalImage : Option String) (filterPrompt : Option String)
  | adjustment (originalImage : Option String) (adjustmentPrompt : Option String)
  | placement (originalImage : Option String) (objectImage : Option String)
      (userPrompt : Option String) (hotspot : Option (ℚ × ℚ))
deriving DecidableEq, Repr

/-- A call to the external Gemini API: the credential handed to
`new GoogleGenAI({ apiKey })` plus the model name and payload. -/
structure ApiCall where
  apiKey : String
  model : String
  payload : CallPayload
deriving DecidableEq, Repr

/-- The client-visible part of an `ApiCall` is everything except the
credential. -/
def ApiCall.stripKey (c : ApiCall) : String × CallPayload := (c.model, c.payload)

/-- A response body produced by the handler. -/
inductive RespBody where
  | empty
  | err (error : String) (details : Option String)
  | success (data : String)
deriving DecidableEq, Repr

/-- An HTTP response as assembled by the handler: status, the three CORS
headers set up front, and the JSON body. -/
structure HttpResponse where
  status : ℕ
  allowOrigin : String
  allowMethods : String
  allowHeaders : String
  body : RespBody
deriving DecidableEq, Repr

/-- Builds a response carrying the CORS headers the handler sets on every
path. -/
def mkResponse (status : ℕ) (body : RespBody) : HttpResponse :=
  { status := status
    allowOrigin := "*"
    allowMethods := "POST, OPTIONS"
    allowHeaders := "Content-Type"
    body := body }

/-- The shared success/catch path around one forwarded call: the `switch`
assigns `response = await handleXRequest(...)`, the code after the switch
answers `200 {success, data}`, and the surrounding `try/catch` answers `500`
with the thrown message as `details`. -/
def runCall (oracle : ApiCall → GenerateContentResponse) (call : ApiCall)
    (context : String) : HttpResponse × List ApiCall :=
  match handleApiResponse (oracle call) context with
  | .ok d => (mkResponse 200 (.success d), [call])
  | .error e => (mkResponse 500 (.err "Error interno del servidor" (some e)), [call])

/-- `handler` (api/generate.js).  The external API is an oracle
`ApiCall → GenerateContentResponse`; the result pairs the HTTP response with
the list of external calls made.  Control flow follows the source: CORS
headers on every response; `OPTIONS → 200`; non-`POST → 405`; missing (falsy)
`GEMINI_API_KEY → 500` before any call; then the `switch` on `type` forwards
`edit`/`filter`/`adjustment`/`placement` and answers `400` for anything else;
a throw from `handleApiResponse` is caught and answered with `500`. -/
def handler (req : HttpRequest) (env : Env)
    (oracle : ApiCall → GenerateContentResponse) : HttpResponse × List ApiCall :=
  if req.method = "OPTIONS" then (mkResponse 200 .empty, [])
  else if req.method ≠ "POST" then
    (mkResponse 405 (.err "Método no permitido" none), [])
  else if ¬ truthyStr env.geminiApiKey then
    (mkResponse 500 (.err "API Key de Gemini no configurada" none), [])
  else if req.body.type = some "edit" then
    runCall oracle ⟨env.geminiApiKey.getD "", "gemini-2.5-flash-image-preview",
      .edit req.body.originalImage req.body.userPrompt req.body.hotspot⟩ "edit"
  else if req.body.type = some "filter" then
    runCall oracle ⟨env.geminiApiKey.getD "", "gemini-2.5-flash-image-preview",
      .filter req.body.originalImage req.body.filterPrompt⟩ "filter"
  else if req.body.type = some "adjustment" then
    runCall oracle ⟨env.geminiApiKey.getD "", "gemini-2.5-flash-image-preview",
      .adjustment req.body.originalImage req.body.adjustmentPrompt⟩ "adjustment"
  else if req.body.type = some "placement" then
    runCall oracle ⟨env.geminiApiKey.getD "", "gemini-2.5-flash-image-preview",
      .placement req.body.originalImage req.body.objectImage req.body.userPrompt
        req.body.hotspot⟩ "placement"
  else (mkResponse 400 (.err "Tipo de operación no válido" none), [])

/-! ## The App component's edit-history state (App.tsx)

`F` stands for the browser `File` type; the handlers only move such values
around, so it is a type parameter.  Each handler is the state transformer the
React callback performs; a generation handler additionally takes the settled
outcome of its service call (`Except` the thrown error's message). -/

/-- The relevant `useState` slots of the `App` component.  `imgRefCurrent`
models whether `imgRef.current` is non-null (an image element is mounted). -/
structure AppState (F : Type) where
  history : List F
  historyIndex : ℤ
  prompt : String
  isLoading : Bool
  error : Option String
  editHotspot : Option (ℤ × ℤ)
  displayHotspot : Option (ℤ × ℤ)
  placementObject : Option F
  placementPrompt : String
  justPlacedObject : Bool
  gridImages : List F
  gridPrompt : String
  completedCrop : Bool
  imgRefCurrent : Bool

variable {F : Type}

/-- JavaScript's blank-prompt guard `!x.trim()`: true exactly when the
string trims to empty, i.e. every character is whitespace. -/
def isBlank (s : String) : Bool := s.toList.all Char.isWhitespace

/-- `const currentImage = history[historyIndex] ?? null`. -/
def currentImage (s : AppState F) : Option F :=
  if s.historyIndex < 0 then none else s.history[s.historyIndex.toNat]?

/-- `const canUndo = historyIndex > 0`. -/
def canUndo (s : AppState F) : Prop := 0 < s.historyIndex

instance (s : AppState F) : Decidable (canUndo s) := by unfold canUndo; infer_instance

/-- `const canRedo = historyIndex < history.length - 1`. -/
def canRedo (s : AppState F) : Prop := s.historyIndex < (s.history.length : ℤ) - 1

instance (s : AppState F) : Decidable (canRedo s) := by unfold canRedo; infer_instance

/-- The well-formedness invariant of the history state: the index stays in
`[-1, history.length)` and is `-1` exactly on an empty history. -/
def histInv (s : AppState F) : Prop :=
  -1 ≤ s.historyIndex ∧ s.historyIndex < (s.history.length : ℤ) ∧
    (s.historyIndex = -1 ↔ s.history = [])

instance [DecidableEq F] (s : AppState F) : Decidable (histInv s) := by
  unfold histInv; infer_instance

/-- What C9 asserts of a generation handler whose service call rejected:
the history and its index are untouched, the error message is recorded, and
the `finally` block has cleared `isLoading`. -/
def AtomicFailure (s' s : AppState F) (msg : String) : Prop :=
  s'.history = s.history ∧ s'.historyIndex = s.historyIndex ∧
    s'.error = some msg ∧ s'.isLoading = false

/-- `addImageToHistory`: truncate the history after the current index
(`history.slice(0, historyIndex + 1)`), append the new image, point the index
at it, and reset the transient crop/hotspot state. -/
def addImageToHistory (newImageFile : F) (s : AppState F) : AppState F :=
  let newHistory := s.history.take (s.historyIndex + 1).toNat ++ [newImageFile]
  { s with
    history := newHistory
    historyIndex := (newHistory.length : ℤ) - 1
    completedCrop := false
    editHotspot := none
    displayHotspot := none }

/-- `handleImageUpload`: replace the whole history with the uploaded file and
reset the session state. -/
def handleImageUpload (file : F) (s : AppState F) : AppState F :=
  { s with
    error := none
    history := [file]
    historyIndex := 0
    editHotspot := none
    displayHotspot := none
    completedCrop := false
    placementObject := none
    placementPrompt := ""
    justPlacedObject := false
    gridImages := []
    gridPrompt := "" }

/-- `handleUndo`: step the index back by one when `canUndo`. -/
def handleUndo (s : AppState F) : AppState F :=
  if canUndo s then
    { s with
      historyIndex := s.historyIndex - 1
      editHotspot := none
      displayHotspot := none
      justPlacedObject := false }
  else s

/-- `handleRedo`: step the index forward by one when `canRedo`. -/
def handleRedo (s : AppState F) : AppState F :=
  if canRedo s then
    { s with
      historyIndex := s.historyIndex + 1
      editHotspot := none
      displayHotspot := none }
  else s

/-- `handleReset`: jump back to index 0 when the history is non-empty. -/
def handleReset (s : AppState F) : AppState F :=
  if s.history.length > 0 then
    { s with
      historyIndex := 0
      error := none
      editHotspot := none
      displayHotspot := none
      justPlacedObject := false }
  else s

/-- `handleUploadNew`: clear the history and all session state. -/
def handleUploadNew (s : AppState F) : AppState F :=
  { s with
    history := []
    historyIndex := -1
    error := none
    prompt := ""
    editHotspot := none
    displayHotspot := none
    placementObject := none
    placementPrompt := ""
    justPlacedObject := false
    gridImages := []
    gridPrompt := "" }

/-- `handleApplyCrop`: with a completed crop and a mounted image element,
rasterize the crop (`croppedFile` stands for the canvas output) and push it
onto the history; otherwise set an error. -/
def handleApplyCrop (croppedFile : F) (s : AppState F) : AppState F :=
  if ¬ s.completedCrop ∨ ¬ s.imgRefCurrent then
    { s with error := some "Please select an area to crop." }
  else
    addImageToHistory croppedFile { s with justPlacedObject := false }

/-- `handleGenerate`: guard on image/prompt/hotspot, then run
`generateEditedImage`; on success push the result, on rejection set the error;
`finally` clears `isLoading`. -/
def handleGenerate (outcome : Except String F) (s : AppState F) : AppState F :=
  if (currentImage s).isNone then { s with error := some "No image loaded to edit." }
  else if isBlank s.prompt then
    { s with error := some "Please enter a description for your edit." }
  else if s.editHotspot.isNone then
    { s with error := some "Please click on the image to select an area to edit." }
  else
    let s₁ := { s with isLoading := true, error := none, justPlacedObject := false }
    match outcome with
    | .ok f => { addImageToHistory f s₁ with isLoading := false }
    | .error e =>
        { s₁ with error := some ("Failed to generate the image. " ++ e), isLoading := false }

/-- `handleApplyFilter`: guard on a loaded image, then run
`generateFilteredImage` analogously. -/
def handleApplyFilter (outcome : Except String F) (s : AppState F) : AppState F :=
  if (currentImage s).isNone then
    { s with error := some "No image loaded to apply a filter to." }
  else
    let s₁ := { s with isLoading := true, error := none, justPlacedObject := false }
    match outcome with
    | .ok f => { addImageToHistory f s₁ with isLoading := false }
    | .error e =>
        { s₁ with error := some ("Failed to apply the filter. " ++ e), isLoading := false }

/-- `handleApplyAdjustment`: guard on a loaded image, then run
`generateAdjustedImage` analogously. -/
def handleApplyAdjustment (outcome : Except String F) (s : AppState F) : AppState F :=
  if (currentImage s).isNone then
    { s with error := some "No image loaded to apply an adjustment to." }
  else
    let s₁ := { s with isLoading := true, error := none, justPlacedObject := false }
    match outcome with
    | .ok f => { addImageToHistory f s₁ with isLoading := false }
    | .error e =>
        { s₁ with error := some ("Failed to apply the adjustment. " ++ e), isLoading := false }

/-- `handlePlaceObject`: guard on image/object/hotspot/prompt, then run
`generatePlacedImage`; success additionally sets `justPlacedObject`. -/
def handlePlaceObject (outcome : Except String F) (s : AppState F) : AppState F :=
  if (currentImage s).isNone then
    { s with error := some "No image loaded to place an object on." }
  else if s.placementObject.isNone then
    { s with error := some "No object image provided to place." }
  else if s.editHotspot.isNone then
    { s with error := some "Please click on the image to select a location to place the object." }
  else if isBlank s.placementPrompt then
    { s with error := some "Please enter a description for how to place the object." }
  else
    let s₁ := { s with isLoading := true, error := none }
    match outcome with
    | .ok f => { addImageToHistory f s₁ with justPlacedObject := true, isLoading := false }
    | .error e =>
        { s₁ with error := some ("Failed to place the object. " ++ e), isLoading := false }

/-- `handleGenerateGrid`: guard on grid images/prompt/`imgRef`, then run
`generateFromGrid`; success also clears the grid inputs. -/
def handleGenerateGrid (outcome : Except String F) (s : AppState F) : AppState F :=
  if s.gridImages.length = 0 then
    { s with error := some "Please upload one or more images for the grid." }
  else if isBlank s.gridPrompt then
    { s with error := some "Please enter a prompt to describe the scene you want to create." }
  else if ¬ s.imgRefCurrent then
    { s with error := some "Cannot determine output dimensions as no base image is loaded." }
  else
    let s₁ := { s with isLoading := true, error := none, justPlacedObject := false }
    match outcome with
    | .ok f =>
        { addImageToHistory f s₁ with gridImages := [], gridPrompt := "", isLoading := false }
    | .error e =>
        { s₁ with error := some ("Failed to generate from grid. " ++ e), isLoading := false }

/-- The four expansion directions of `ExpandPanel`. -/
inductive Direction where
  | left
  | right
  | top
  | bottom
deriving DecidableEq, Repr

/-- `handleExpandImage`: guard on a loaded image, then run
`generateExpandedImage` for the chosen direction. -/
def handleExpandImage (_direction : Direction) (outcome : Except String F)
    (s : AppState F) : AppState F :=
  if (currentImage s).isNone then { s with error := some "No image loaded to expand." }
  else
    let s₁ := { s with isLoading := true, error := none, justPlacedObject := false }
    match outcome with
    | .ok f => { addImageToHistory f s₁ with isLoading := false }
    | .error e =>
        { s₁ with error := some ("Failed to expand the image. " ++ e), isLoading := false }

/-! ## Concrete test data for witnesses -/

/-- A 2 × 1 test image whose pixel value records the sample position. -/
def testImg : Img :=
  { width := 2
    height := 1
    pix := fun u v => ⟨u, v, 0, 1⟩ }

/-- A stub external API that returns an empty response. -/
def oracleStub : ApiCall → GenerateContentResponse := fun _ => ⟨none, none, none⟩

/-- A Gemini response carrying one inline-image part with finish reason
`'STOP'`. -/
def respImg : GenerateContentResponse :=
  ⟨none, some [⟨some ⟨some [⟨some ⟨"image/png", "AAA"⟩, none⟩]⟩, some "STOP"⟩], none⟩

/-- A Gemini response whose prompt was blocked. -/
def respBlocked : GenerateContentResponse :=
  ⟨some ⟨some "SAFETY", none⟩, none, none⟩

/-- The request `generateFromGrid` produces: `POST` with `type: 'grid'`
(its `images`/`targetDimensions` fields are not among the ones the handler
destructures). -/
def gridRequest : HttpRequest :=
  ⟨"POST", ⟨some "grid", none, some "combine these items", none, none, none, none⟩⟩

/-- The request `generateExpandedImage` produces: `POST` with
`type: 'expand'`. -/
def expandRequest : HttpRequest :=
  ⟨"POST", ⟨some "expand", some "IMG", some "more beach", none, none, none, none⟩⟩

/-- A well-formed `type: 'edit'` request as `generateEditedImage` sends. -/
def editRequest : HttpRequest :=
  ⟨"POST", ⟨some "edit", some "IMG", some "red shirt", some (3, 4), none, none, none⟩⟩

/-- A `GET` request, for the method-check witness. -/
def getRequest : HttpRequest :=
  ⟨"GET", ⟨none, none, none, none, none, none, none⟩⟩

/-- An environment with the API key configured. -/
def envK : Env := ⟨some "k"⟩

/-- A concrete app state with two history entries, the second one current,
and every generation guard satisfied. -/
def testState : AppState ℕ :=
  { history := [10, 20]
    historyIndex := 1
    prompt := "p"
    isLoading := false
    error := none
    editHotspot := some (1, 2)
    displayHotspot := none
    placementObject := some 5
    placementPrompt := "pp"
    justPlacedObject := false
    gridImages := [7]
    gridPrompt := "gp"
    completedCrop := true
    imgRefCurrent := true }

end DemoIA

namespace DemoIA

lemma padSize_pos {img : Img} (hw : 0 < img.width) : 0 < padSize img :=
  lt_of_lt_of_le hw (le_max_left _ _)

lemma padSize_cast_ne {img : Img} (hw : 0 < img.width) : ((padSize img : ℕ) : ℚ) ≠ 0 := by
  exact_mod_cast (padSize_pos hw).ne'

/-- C4: `padImageToSquare` produces a square of side `max(w, h)`, records the
original dimensions, centers the content at offset `((S - w) / 2, (S - h) / 2)`
(the content is drawn unscaled: each original sample reappears translated by
exactly the offset), and is black outside the content rectangle. -/
theorem padImageToSquare_spec (img : Img) :
    (padImageToSquare img).file.width = padSize img ∧
    (padImageToSquare img).file.height = padSize img ∧
    (padImageToSquare img).originalWidth = img.width ∧
    (padImageToSquare img).originalHeight = img.height ∧
    2 * padOffsetX img + (img.width : ℚ) = ((padSize img : ℕ) : ℚ) ∧
    2 * padOffsetY img + (img.height : ℚ) = ((padSize img : ℕ) : ℚ) ∧
    (∀ u v : ℚ, 0 ≤ u → u < (img.width : ℚ) → 0 ≤ v → v < (img.height : ℚ) →
      (padImageToSquare img).file.pix (padOffsetX img + u) (padOffsetY img + v) =
        img.pix u v) ∧
    (∀ u v : ℚ,
      ¬ (padOffsetX img ≤ u ∧ u < padOffsetX img + (img.width : ℚ) ∧
          padOffsetY img ≤ v ∧ v < padOffsetY img + (img.height : ℚ)) →
      (padImageToSquare img).file.pix u v = black) := by
  refine ⟨rfl, rfl, rfl, rfl, by unfold padOffsetX; ring, by unfold padOffsetY; ring, ?_, ?_⟩
  · intro u v hu0 huw hv0 hvh
    show (if padOffsetX img ≤ padOffsetX img + u ∧
            padOffsetX img + u < padOffsetX img + (img.width : ℚ) ∧
            padOffsetY img ≤ padOffsetY img + v ∧
            padOffsetY img + v < padOffsetY img + (img.height : ℚ) then
          img.pix (padOffsetX img + u - padOffsetX img) (padOffsetY img + v - padOffsetY img)
        else black) = img.pix u v
    rw [if_pos ⟨by linarith, by linarith, by linarith, by linarith⟩]
    congr 1 <;> ring
  · intro u v hout
    exact if_neg hout

/-- Witness for C4 at the concrete test image (with `S = 2`, offsets
`(0, 1/2)`): a content sample is recovered and an outside sample is black. -/
theorem padImageToSquare_spec_witness :
    (padImageToSquare testImg).file.pix (padOffsetX testImg + 1) (padOffsetY testImg + (1/2)) =
        testImg.pix 1 (1/2) ∧
    (padImageToSquare testImg).file.pix (-1) 0 = black :=
  ⟨(padImageToSquare_spec testImg).2.2.2.2.2.2.1 1 (1/2) (by norm_num)
      (by norm_num [testImg]) (by norm_num) (by norm_num [testImg]),
   (padImageToSquare_spec testImg).2.2.2.2.2.2.2 (-1) 0 (by
      intro h
      have := h.1
      have hx : padOffsetX testImg = 0 := by norm_num [padOffsetX, padSize, testImg]
      rw [hx] at this
      norm_num at this)⟩

/-- C5: `cropSquareToOriginal` computes the source rectangle with top-left
`(N·(S − w)/(2S), N·(S − h)/(2S))` and size `(N·w/S, N·h/S)`, and its output
canvas is `w × h` for every square side `N`. -/
theorem cropSquareToOriginal_spec (newSize w h : ℕ) (sq : Img) :
    (cropGeometry newSize w h).sourceX =
        (newSize : ℚ) * (((max w h : ℕ) : ℚ) - (w : ℚ)) / (2 * ((max w h : ℕ) : ℚ)) ∧
    (cropGeometry newSize w h).sourceY =
        (newSize : ℚ) * (((max w h : ℕ) : ℚ) - (h : ℚ)) / (2 * ((max w h : ℕ) : ℚ)) ∧
    (cropGeometry newSize w h).sourceWidth =
        (newSize : ℚ) * (w : ℚ) / ((max w h : ℕ) : ℚ) ∧
    (cropGeometry newSize w h).sourceHeight =
        (newSize : ℚ) * (h : ℚ) / ((max w h : ℕ) : ℚ) ∧
    (cropSquareToOriginal sq w h).width = w ∧
    (cropSquareToOriginal sq w h).height = h := by
  refine ⟨?_, ?_, ?_, ?_, rfl, rfl⟩ <;>
    · show (newSize : ℚ) * _ = _
      first
      | (rw [div_div]; ring)
      | ring

/-- C1: padding and then cropping (the same square side `S`, content
unchanged) is the identity on dimensions and content, and the crop's source
rectangle coincides exactly with the centered region where the pad placed the
content. -/
theorem padCrop_roundTrip (img : Img) (hw : 0 < img.width) (hh : 0 < img.height) :
    (cropSquareToOriginal (padImageToSquare img).file img.width img.height).width =
        img.width ∧
    (cropSquareToOriginal (padImageToSquare img).file img.width img.height).height =
        img.height ∧
    (cropGeometry (padSize img) img.width img.height).sourceX = padOffsetX img ∧
    (cropGeometry (padSize img) img.width img.height).sourceY = padOffsetY img ∧
    (cropGeometry (padSize img) img.width img.height).sourceWidth = (img.width : ℚ) ∧
    (cropGeometry (padSize img) img.width img.height).sourceHeight = (img.height : ℚ) ∧
    (∀ u v : ℚ, 0 ≤ u → u < (img.width : ℚ) → 0 ≤ v → v < (img.height : ℚ) →
      (cropSquareToOriginal (padImageToSquare img).file img.width img.height).pix u v =
        img.pix u v) := by
  have hS : ((padSize img : ℕ) : ℚ) ≠ 0 := padSize_cast_ne hw
  have hwQ : ((img.width : ℕ) : ℚ) ≠ 0 := by exact_mod_cast hw.ne'
  have hhQ : ((img.height : ℕ) : ℚ) ≠ 0 := by exact_mod_cast hh.ne'
  have hX : (cropGeometry (padSize img) img.width img.height).sourceX = padOffsetX img := by
    simp only [cropGeometry, padOffsetX, padSize]
    field_simp
    ring
  have hY : (cropGeometry (padSize img) img.width img.height).sourceY = padOffsetY img := by
    simp only [cropGeometry, padOffsetY, padSize]
    field_simp
    ring
  have hW : (cropGeometry (padSize img) img.width img.height).sourceWidth = (img.width : ℚ) := by
    simp only [cropGeometry, padSize]
    field_simp
  have hH : (cropGeometry (padSize img) img.width img.height).sourceHeight = (img.height : ℚ) := by
    simp only [cropGeometry, padSize]
    field_simp
  refine ⟨rfl, rfl, hX, hY, hW, hH, ?_⟩
  intro u v hu0 huw hv0 hvh
  show (padImageToSquare img).file.pix
      ((cropGeometry (padSize img) img.width img.height).sourceX +
        u * (cropGeometry (padSize img) img.width img.height).sourceWidth / (img.width : ℚ))
      ((cropGeometry (padSize img) img.width img.height).sourceY +
        v * (cropGeometry (padSize img) img.width img.height).sourceHeight / (img.height : ℚ)) =
    img.pix u v
  rw [hX, hY, hW, hH, mul_div_assoc, div_self hwQ, mul_one, mul_div_assoc, div_self hhQ,
    mul_one]
  exact (padImageToSquare_spec img).2.2.2.2.2.2.1 u v hu0 huw hv0 hvh

/-- Witness for C1 at the concrete test image: the round trip recovers the
dimensions, the source rectangle, and an interior sample. -/
theorem padCrop_roundTrip_witness :
    0 < testImg.width ∧ 0 < testImg.height ∧
    (cropSquareToOriginal (padImageToSquare testImg).file testImg.width testImg.height).width =
        testImg.width ∧
    (cropGeometry (padSize testImg) testImg.width testImg.height).sourceX =
        padOffsetX testImg ∧
    (cropSquareToOriginal (padImageToSquare testImg).file testImg.width testImg.height).pix
        1 (1/2) = testImg.pix 1 (1/2) :=
  ⟨by norm_num [testImg], by norm_num [testImg],
   (padCrop_roundTrip testImg (by norm_num [testImg]) (by norm_num [testImg])).1,
   (padCrop_roundTrip testImg (by norm_num [testImg]) (by norm_num [testImg])).2.2.1,
   (padCrop_roundTrip testImg (by norm_num [testImg]) (by norm_num [testImg])).2.2.2.2.2.2 1
     (1/2) (by norm_num) (by norm_num [testImg]) (by norm_num) (by norm_num [testImg])⟩


/-- C6: in `generateEditedImage` and `generatePlacedImage` the request's
`hotspot` field is the user hotspot translated by the pad offsets, the sent
image is exactly the padded image with the marker drawn at those same
coordinates, and a hotspot inside the original image lands on the
corresponding point of the centered content region of the padded square. -/
theorem hotspot_marker_spec (img : Img) (obj : Img) (userPrompt : String)
    (hs : ℚ × ℚ) :
    (generateEditedImage img userPrompt hs).hotspot =
        (hs.1 + padOffsetX img, hs.2 + padOffsetY img) ∧
    (generateEditedImage img userPrompt hs).originalImage =
        drawHotspotOnImage (padImageToSquare img).file
          (generateEditedImage img userPrompt hs).hotspot ∧
    (generatePlacedImage img obj userPrompt hs).hotspot =
        (generateEditedImage img userPrompt hs).hotspot ∧
    (generatePlacedImage img obj userPrompt hs).originalImage =
        drawHotspotOnImage (padImageToSquare img).file
          (generateEditedImage img userPrompt hs).hotspot ∧
    (0 ≤ hs.1 → hs.1 < (img.width : ℚ) → 0 ≤ hs.2 → hs.2 < (img.height : ℚ) →
      (padOffsetX img ≤ (generateEditedImage img userPrompt hs).hotspot.1 ∧
        (generateEditedImage img userPrompt hs).hotspot.1 <
          padOffsetX img + (img.width : ℚ) ∧
        padOffsetY img ≤ (generateEditedImage img userPrompt hs).hotspot.2 ∧
        (generateEditedImage img userPrompt hs).hotspot.2 <
          padOffsetY img + (img.height : ℚ)) ∧
      (generateEditedImage img userPrompt hs).hotspot =
        (padOffsetX img + hs.1, padOffsetY img + hs.2)) := by
  have hhot : (generateEditedImage img userPrompt hs).hotspot =
      (hs.1 + padOffsetX img, hs.2 + padOffsetY img) := rfl
  refine ⟨hhot, rfl, rfl, rfl, ?_⟩
  intro h1 h2 h3 h4
  rw [hhot]
  exact ⟨⟨by simpa using h1, by simp only [Prod.fst]; linarith,
      by simpa using h3, by simp only [Prod.snd]; linarith⟩,
    by rw [Prod.mk.injEq]; constructor <;> ring⟩

/-- Witness for C6 at the concrete test image with hotspot `(1, 1/2)` inside
the content. -/
theorem hotspot_marker_spec_witness :
    (generateEditedImage testImg "edit it" (1, 1/2)).hotspot =
        ((1 : ℚ) + padOffsetX testImg, (1 : ℚ)/2 + padOffsetY testImg) ∧
    padOffsetX testImg ≤ (generateEditedImage testImg "edit it" (1, 1/2)).hotspot.1 :=
  ⟨(hotspot_marker_spec testImg testImg "edit it" (1, 1/2)).1,
   ((hotspot_marker_spec testImg testImg "edit it" (1, 1/2)).2.2.2.2 (by norm_num)
      (by norm_num [testImg]) (by norm_num) (by norm_num [testImg])).1.1⟩

/-- C7: `handleApiResponse` resolves with a data-URL image exactly when the
prompt was not blocked and the response carries an inline-image part; in
every other case (blocked prompt, non-`'STOP'` finish reason, text-only or
empty response) it throws — it never resolves with text only or with an
empty result. -/
theorem handleApiResponse_spec (r : GenerateContentResponse) (context : String) :
    ((∃ s, handleApiResponse r context = .ok s) ↔
      (isBlocked r = false ∧ (imageDataOf r).isSome = true)) ∧
    (∀ d : InlineData, isBlocked r = false → imageDataOf r = some d →
      handleApiResponse r context =
        .ok ("data:" ++ d.mimeType ++ ";base64," ++ d.data)) ∧
    (isBlocked r = true → ∃ m, handleApiResponse r context = .error m) ∧
    (imageDataOf r = none → ∃ m, handleApiResponse r context = .error m) := by
  unfold handleApiResponse
  cases hb : isBlocked r with
  | true => simp [hb]
  | false =>
      cases hd : imageDataOf r with
      | some d => simp [hb, hd]
      | none =>
          simp only [hb, hd, Bool.false_eq_true, if_false]
          refine ⟨?_, by simp, by simp, fun _ => ?_⟩ <;> split_ifs <;> simp


/-- Witness for C7: a concrete image-bearing response resolves to its data
URL, and a concrete blocked response throws. -/
theorem handleApiResponse_spec_witness :
    handleApiResponse respImg "edit" = .ok "data:image/png;base64,AAA" ∧
    (∃ m, handleApiResponse respBlocked "edit" = .error m) :=
  ⟨(handleApiResponse_spec respImg "edit").2.1 ⟨"image/png", "AAA"⟩ rfl rfl,
   (handleApiResponse_spec respBlocked "edit").2.2.1 rfl⟩

/-- Helper: `runCall` always answers with the CORS headers of `mkResponse`. -/
theorem runCall_fst_allowOrigin (oracle : ApiCall → GenerateContentResponse)
    (call : ApiCall) (context : String) :
    (runCall oracle call context).1.allowOrigin = "*" := by
  unfold runCall
  cases handleApiResponse (oracle call) context <;> rfl

/-- C10: the handler answers every `OPTIONS` request with status 200, every
request of any other non-`POST` method with status 405 and the error
`'Método no permitido'`, and carries `Access-Control-Allow-Origin: *` on
every response. -/
theorem handler_cors_spec (req : HttpRequest) (env : Env)
    (oracle : ApiCall → GenerateContentResponse) :
    (handler req env oracle).1.allowOrigin = "*" ∧
    (req.method = "OPTIONS" → (handler req env oracle).1.status = 200) ∧
    (req.method ≠ "OPTIONS" → req.method ≠ "POST" →
      (handler req env oracle).1.status = 405 ∧
      (handler req env oracle).1.body = .err "Método no permitido" none) := by
  refine ⟨?_, ?_, ?_⟩
  · unfold handler
    split
    · rfl
    split
    · rfl
    split
    · rfl
    split
    · exact runCall_fst_allowOrigin ..
    split
    · exact runCall_fst_allowOrigin ..
    split
    · exact runCall_fst_allowOrigin ..
    split
    · exact runCall_fst_allowOrigin ..
    rfl
  · intro h
    unfold handler
    rw [if_pos h]
    rfl
  · intro h1 h2
    unfold handler
    rw [if_neg h1, if_pos h2]
    exact ⟨rfl, rfl⟩

/-- Witness for C10: a concrete `OPTIONS` request gets 200 and a concrete
`GET` request gets the 405 error, both with the wildcard origin header. -/
theorem handler_cors_spec_witness :
    (handler ⟨"OPTIONS", getRequest.body⟩ envK oracleStub).1.status = 200 ∧
    (handler getRequest envK oracleStub).1.status = 405 ∧
    (handler getRequest envK oracleStub).1.allowOrigin = "*" :=
  ⟨(handler_cors_spec ⟨"OPTIONS", getRequest.body⟩ envK oracleStub).2.1 rfl,
   ((handler_cors_spec getRequest envK oracleStub).2.2 (by decide) (by decide)).1,
   (handler_cors_spec getRequest envK oracleStub).1⟩

/-- Helper: the client-visible half of `runCall` does not depend on the
credential inside the call, provided the oracle only looks at the stripped
call. -/
theorem runCall_fst_key_indep (oracle : ApiCall → GenerateContentResponse)
    (horacle : ∀ c₁ c₂ : ApiCall, c₁.stripKey = c₂.stripKey → oracle c₁ = oracle c₂)
    (k₁ k₂ m : String) (pl : CallPayload) (context : String) :
    (runCall oracle ⟨k₁, m, pl⟩ context).1 = (runCall oracle ⟨k₂, m, pl⟩ context).1 := by
  unfold runCall
  rw [horacle ⟨k₁, m, pl⟩ ⟨k₂, m, pl⟩ rfl]
  cases handleApiResponse (oracle ⟨k₂, m, pl⟩) context <;> rfl

/-- C3: the credential stays server-side.  (a) With a falsy
`GEMINI_API_KEY`, a `POST` is answered `500 'API Key de Gemini no
configurada'` and no external call is made.  (b) Two runs on the same request
that differ only in the (set) key value produce identical client-visible
responses, as long as the external API is observed only through its opaque
result (the oracle cannot depend on the credential beyond receiving it). -/
theorem handler_key_spec :
    (∀ (req : HttpRequest) (env : Env) (oracle : ApiCall → GenerateContentResponse),
      req.method = "POST" → truthyStr env.geminiApiKey = false →
      handler req env oracle =
        (mkResponse 500 (.err "API Key de Gemini no configurada" none), [])) ∧
    (∀ (req : HttpRequest) (k₁ k₂ : String)
        (oracle : ApiCall → GenerateContentResponse),
      truthyStr (some k₁) = true → truthyStr (some k₂) = true →
      (∀ c₁ c₂ : ApiCall, c₁.stripKey = c₂.stripKey → oracle c₁ = oracle c₂) →
      (handler req ⟨some k₁⟩ oracle).1 = (handler req ⟨some k₂⟩ oracle).1) := by
  constructor
  · intro req env oracle hp hk
    unfold handler
    rw [if_neg (by rw [hp]; decide), if_neg (by simp [hp]), if_pos (by simp [hk])]
  · intro req k₁ k₂ oracle h1 h2 horacle
    unfold handler
    by_cases hm : req.method = "OPTIONS"
    · simp only [if_pos hm]
    simp only [if_neg hm]
    by_cases hp : req.method ≠ "POST"
    · simp only [if_pos hp]
    simp only [if_neg hp]
    rw [if_neg (by simp [h1] : ¬ (¬ truthyStr (Env.mk (some k₁)).geminiApiKey = true)),
      if_neg (by simp [h2] : ¬ (¬ truthyStr (Env.mk (some k₂)).geminiApiKey = true))]
    by_cases t1 : req.body.type = some "edit"
    · simp only [if_pos t1]
      exact runCall_fst_key_indep oracle horacle ..
    simp only [if_neg t1]
    by_cases t2 : req.body.type = some "filter"
    · simp only [if_pos t2]
      exact runCall_fst_key_indep oracle horacle ..
    simp only [if_neg t2]
    by_cases t3 : req.body.type = some "adjustment"
    · simp only [if_pos t3]
      exact runCall_fst_key_indep oracle horacle ..
    simp only [if_neg t3]
    by_cases t4 : req.body.type = some "placement"
    · simp only [if_pos t4]
      exact runCall_fst_key_indep oracle horacle ..
    simp only [if_neg t4]

/-- Witness for C3: the missing-key path on a concrete edit request, and key
independence for a concrete constant oracle and two distinct keys. -/
theorem handler_key_spec_witness :
    handler editRequest ⟨none⟩ oracleStub =
      (mkResponse 500 (.err "API Key de Gemini no configurada" none), []) ∧
    (handler editRequest ⟨some "key-one"⟩ oracleStub).1 =
      (handler editRequest ⟨some "key-two"⟩ oracleStub).1 :=
  ⟨handler_key_spec.1 editRequest ⟨none⟩ oracleStub rfl rfl,
   handler_key_spec.2 editRequest "key-one" "key-two" oracleStub rfl rfl
     (fun _ _ _ => rfl)⟩

/-- C2 (code bug): the client's `generateFromGrid` and
`generateExpandedImage` post `type: 'grid'` and `type: 'expand'` to
`/api/generate`, but the relay's `switch` has no case for them: even with the
API key configured it answers `400 'Tipo de operación no válido'` and never
contacts the external API, while a well-formed `type: 'edit'` request is
forwarded (exactly one external call carrying the request's fields). -/
theorem grid_expand_not_forwarded :
    handler gridRequest envK oracleStub =
      (mkResponse 400 (.err "Tipo de operación no válido" none), []) ∧
    handler expandRequest envK oracleStub =
      (mkResponse 400 (.err "Tipo de operación no válido" none), []) ∧
    (handler editRequest envK oracleStub).2 =
      [⟨"k", "gemini-2.5-flash-image-preview",
        .edit (some "IMG") (some "red shirt") (some (3, 4))⟩] := by
  refine ⟨rfl, rfl, ?_⟩
  show (runCall oracleStub _ "edit").2 = _
  unfold runCall
  cases h : handleApiResponse (oracleStub _) "edit" <;> rfl


/-- Helper: `addImageToHistory` always re-establishes the history invariant,
from any state. -/
theorem histInv_addImageToHistory {F : Type} (f : F) (s : AppState F) :
    histInv (addImageToHistory f s) := by
  show -1 ≤ ((s.history.take (s.historyIndex + 1).toNat ++ [f]).length : ℤ) - 1 ∧
    ((s.history.take (s.historyIndex + 1).toNat ++ [f]).length : ℤ) - 1 <
      ((s.history.take (s.historyIndex + 1).toNat ++ [f]).length : ℤ) ∧
    (((s.history.take (s.historyIndex + 1).toNat ++ [f]).length : ℤ) - 1 = -1 ↔
      s.history.take (s.historyIndex + 1).toNat ++ [f] = [])
  have hlen : (s.history.take (s.historyIndex + 1).toNat ++ [f]).length =
      (s.history.take (s.historyIndex + 1).toNat).length + 1 := by simp
  rw [hlen]
  refine ⟨by push_cast; omega, by push_cast; omega, ?_⟩
  constructor
  · intro h
    exfalso
    push_cast at h
    omega
  · intro h
    simp at h

/-- Helper: the image just added is the current one. -/
theorem currentImage_addImageToHistory {F : Type} (f : F) (s : AppState F) :
    currentImage (addImageToHistory f s) = some f := by
  show (if (((s.history.take (s.historyIndex + 1).toNat ++ [f]).length : ℤ) - 1) < 0
      then none
      else (s.history.take (s.historyIndex + 1).toNat ++
          [f])[((((s.history.take (s.historyIndex + 1).toNat ++ [f]).length : ℤ) - 1)).toNat]?)
    = some f
  have hlen : (s.history.take (s.historyIndex + 1).toNat ++ [f]).length =
      (s.history.take (s.historyIndex + 1).toNat).length + 1 := by simp
  rw [hlen, if_neg (by push_cast; omega)]
  rw [show ((((s.history.take (s.historyIndex + 1).toNat).length + 1 : ℕ) : ℤ) - 1).toNat =
      (s.history.take (s.historyIndex + 1).toNat).length by omega]
  exact List.getElem?_concat_length _ f


/-- Helper: the undo/redo/reset family preserves the invariant. -/
theorem histInv_navigation {F : Type} (s : AppState F) (hinv : histInv s) :
    histInv (handleUndo s) ∧ histInv (handleRedo s) ∧ histInv (handleReset s) := by
  obtain ⟨h1, h2, h3⟩ := hinv
  refine ⟨?_, ?_, ?_⟩
  · unfold handleUndo
    split_ifs with hc
    · have hc' : 0 < s.historyIndex := hc
      show -1 ≤ s.historyIndex - 1 ∧ s.historyIndex - 1 < (s.history.length : ℤ) ∧
        (s.historyIndex - 1 = -1 ↔ s.history = [])
      refine ⟨by omega, by omega, ?_, ?_⟩
      · intro h
        omega
      · intro h
        have := h3.mpr h
        omega
    · exact ⟨h1, h2, h3⟩
  · unfold handleRedo
    split_ifs with hc
    · have hc' : s.historyIndex < (s.history.length : ℤ) - 1 := hc
      show -1 ≤ s.historyIndex + 1 ∧ s.historyIndex + 1 < (s.history.length : ℤ) ∧
        (s.historyIndex + 1 = -1 ↔ s.history = [])
      refine ⟨by omega, by omega, ?_, ?_⟩
      · intro h
        omega
      · intro h
        have hl : s.history.length = 0 := by rw [h]; rfl
        omega
    · exact ⟨h1, h2, h3⟩
  · unfold handleReset
    split_ifs with hc
    · show -1 ≤ (0 : ℤ) ∧ (0 : ℤ) < (s.history.length : ℤ) ∧
        ((0 : ℤ) = -1 ↔ s.history = [])
      refine ⟨by omega, by exact_mod_cast hc, ?_, ?_⟩
      · intro h
        omega
      · intro h
        have hl : s.history.length = 0 := by rw [h]; rfl
        omega
    · exact ⟨h1, h2, h3⟩

/-- Helper: every generation handler preserves the invariant, whatever its
service call returned. -/
theorem histInv_generation {F : Type} (s : AppState F) (hinv : histInv s) :
    (∀ o : Except String F, histInv (handleGenerate o s)) ∧
    (∀ o : Except String F, histInv (handleApplyFilter o s)) ∧
    (∀ o : Except String F, histInv (handleApplyAdjustment o s)) ∧
    (∀ o : Except String F, histInv (handlePlaceObject o s)) ∧
    (∀ o : Except String F, histInv (handleGenerateGrid o s)) ∧
    (∀ (d : Direction) (o : Except String F), histInv (handleExpandImage d o s)) := by
  refine ⟨fun o => ?_, fun o => ?_, fun o => ?_, fun o => ?_, fun o => ?_, fun _ o => ?_⟩ <;>
    cases o with
    | error e =>
        first
        | (unfold handleGenerate; split_ifs <;> exact hinv)
        | (unfold handleApplyFilter; split_ifs <;> exact hinv)
        | (unfold handleApplyAdjustment; split_ifs <;> exact hinv)
        | (unfold handlePlaceObject; split_ifs <;> exact hinv)
        | (unfold handleGenerateGrid; split_ifs <;> exact hinv)
        | (unfold handleExpandImage; split_ifs <;> exact hinv)
    | ok f =>
        first
        | (unfold handleGenerate; split_ifs <;>
            first | exact hinv | exact histInv_addImageToHistory f _)
        | (unfold handleApplyFilter; split_ifs <;>
            first | exact hinv | exact histInv_addImageToHistory f _)
        | (unfold handleApplyAdjustment; split_ifs <;>
            first | exact hinv | exact histInv_addImageToHistory f _)
        | (unfold handlePlaceObject; split_ifs <;>
            first | exact hinv | exact histInv_addImageToHistory f _)
        | (unfold handleGenerateGrid; split_ifs <;>
            first | exact hinv | exact histInv_addImageToHistory f _)
        | (unfold handleExpandImage; split_ifs <;>
            first | exact hinv | exact histInv_addImageToHistory f _)

/-- C8: the edit-history invariant `-1 ≤ historyIndex < history.length`
(with `-1` exactly on the empty history) holds after every handler; undo and
redo move the index by exactly one under their guards and never modify the
entries; `addImageToHistory` truncates after the current index, appends the
new image, and makes it both the last entry and the current image. -/
theorem history_state_spec {F : Type} (s : AppState F) (f : F) (hinv : histInv s) :
    histInv (handleImageUpload f s) ∧
    histInv (handleUploadNew s) ∧
    histInv (handleUndo s) ∧
    histInv (handleRedo s) ∧
    histInv (handleReset s) ∧
    histInv (addImageToHistory f s) ∧
    histInv (handleApplyCrop f s) ∧
    (∀ o : Except String F, histInv (handleGenerate o s)) ∧
    (∀ o : Except String F, histInv (handleApplyFilter o s)) ∧
    (∀ o : Except String F, histInv (handleApplyAdjustment o s)) ∧
    (∀ o : Except String F, histInv (handlePlaceObject o s)) ∧
    (∀ o : Except String F, histInv (handleGenerateGrid o s)) ∧
    (∀ (d : Direction) (o : Except String F), histInv (handleExpandImage d o s)) ∧
    (handleUndo s).history = s.history ∧
    (handleRedo s).history = s.history ∧
    (canUndo s → (handleUndo s).historyIndex = s.historyIndex - 1) ∧
    (¬ canUndo s → handleUndo s = s) ∧
    (canRedo s → (handleRedo s).historyIndex = s.historyIndex + 1) ∧
    (¬ canRedo s → handleRedo s = s) ∧
    (addImageToHistory f s).history =
      s.history.take (s.historyIndex + 1).toNat ++ [f] ∧
    (addImageToHistory f s).history.getLast? = some f ∧
    currentImage (addImageToHistory f s) = some f ∧
    (addImageToHistory f s).historyIndex =
      ((addImageToHistory f s).history.length : ℤ) - 1 := by
  obtain ⟨hnav1, hnav2, hnav3⟩ := histInv_navigation s hinv
  obtain ⟨hg1, hg2, hg3, hg4, hg5, hg6⟩ := histInv_generation s hinv
  refine ⟨?_, ?_, hnav1, hnav2, hnav3, histInv_addImageToHistory f s, ?_, hg1, hg2, hg3,
    hg4, hg5, hg6, ?_, ?_, ?_, ?_, ?_, ?_, rfl, ?_, currentImage_addImageToHistory f s, rfl⟩
  · show (-1 : ℤ) ≤ 0 ∧ (0 : ℤ) < (([f] : List F).length : ℤ) ∧
      ((0 : ℤ) = -1 ↔ ([f] : List F) = [])
    refine ⟨by omega, by simp, by simp⟩
  · show (-1 : ℤ) ≤ -1 ∧ (-1 : ℤ) < (([] : List F).length : ℤ) ∧
      ((-1 : ℤ) = -1 ↔ ([] : List F) = [])
    refine ⟨by omega, by simp, by simp⟩
  · unfold handleApplyCrop
    split_ifs
    · exact hinv
    · exact histInv_addImageToHistory f _
  · unfold handleUndo
    split_ifs <;> rfl
  · unfold handleRedo
    split_ifs <;> rfl
  · intro hc
    unfold handleUndo
    rw [if_pos hc]
  · intro hc
    unfold handleUndo
    rw [if_neg hc]
  · intro hc
    unfold handleRedo
    rw [if_pos hc]
  · intro hc
    unfold handleRedo
    rw [if_neg hc]
  · show (s.history.take (s.historyIndex + 1).toNat ++ [f]).getLast? = some f
    exact List.getLast?_concat _


/-- Witness for C8 at a concrete two-entry state with the index on the last
entry. -/
theorem history_state_spec_witness :
    histInv testState ∧
    currentImage (addImageToHistory 99 testState) = some 99 ∧
    (handleUndo testState).historyIndex = testState.historyIndex - 1 ∧
    (handleUndo testState).history = testState.history :=
  ⟨by decide,
   (history_state_spec testState 99 (by decide)).2.2.2.2.2.2.2.2.2.2.2.2.2.2.2.2.2.2.2.2.2.1,
   (history_state_spec testState 99 (by decide)).2.2.2.2.2.2.2.2.2.2.2.2.2.2.2.1 (by decide),
   (history_state_spec testState 99 (by decide)).2.2.2.2.2.2.2.2.2.2.2.2.2.1⟩

/-- C9: in every generation handler, if the service call rejects then the
history and its index are unchanged, only the error message is set, and
`isLoading` ends up false — as it also does on success. -/
theorem generation_handlers_atomic {F : Type} (s : AppState F) (e : String)
    (d : Direction) :
    ((currentImage s).isNone = false → isBlank s.prompt = false →
      s.editHotspot.isNone = false →
      AtomicFailure (handleGenerate (.error e) s) s
        ("Failed to generate the image. " ++ e) ∧
      ∀ f : F, (handleGenerate (.ok f) s).isLoading = false) ∧
    ((currentImage s).isNone = false →
      AtomicFailure (handleApplyFilter (.error e) s) s
        ("Failed to apply the filter. " ++ e) ∧
      ∀ f : F, (handleApplyFilter (.ok f) s).isLoading = false) ∧
    ((currentImage s).isNone = false →
      AtomicFailure (handleApplyAdjustment (.error e) s) s
        ("Failed to apply the adjustment. " ++ e) ∧
      ∀ f : F, (handleApplyAdjustment (.ok f) s).isLoading = false) ∧
    ((currentImage s).isNone = false → s.placementObject.isNone = false →
      s.editHotspot.isNone = false → isBlank s.placementPrompt = false →
      AtomicFailure (handlePlaceObject (.error e) s) s
        ("Failed to place the object. " ++ e) ∧
      ∀ f : F, (handlePlaceObject (.ok f) s).isLoading = false) ∧
    (s.gridImages.length ≠ 0 → isBlank s.gridPrompt = false →
      s.imgRefCurrent = true →
      AtomicFailure (handleGenerateGrid (.error e) s) s
        ("Failed to generate from grid. " ++ e) ∧
      ∀ f : F, (handleGenerateGrid (.ok f) s).isLoading = false) ∧
    ((currentImage s).isNone = false →
      AtomicFailure (handleExpandImage d (.error e) s) s
        ("Failed to expand the image. " ++ e) ∧
      ∀ f : F, (handleExpandImage d (.ok f) s).isLoading = false) := by
  refine ⟨?_, ?_, ?_, ?_, ?_, ?_⟩
  · intro h1 h2 h3
    constructor
    · unfold handleGenerate
      rw [if_neg (by simp [h1]), if_neg (by simp [h2]), if_neg (by simp [h3])]
      exact ⟨rfl, rfl, rfl, rfl⟩
    · intro f
      unfold handleGenerate
      rw [if_neg (by simp [h1]), if_neg (by simp [h2]), if_neg (by simp [h3])]
  · intro h1
    constructor
    · unfold handleApplyFilter
      rw [if_neg (by simp [h1])]
      exact ⟨rfl, rfl, rfl, rfl⟩
    · intro f
      unfold handleApplyFilter
      rw [if_neg (by simp [h1])]
  · intro h1
    constructor
    · unfold handleApplyAdjustment
      rw [if_neg (by simp [h1])]
      exact ⟨rfl, rfl, rfl, rfl⟩
    · intro f
      unfold handleApplyAdjustment
      rw [if_neg (by simp [h1])]
  · intro h1 h2 h3 h4
    constructor
    · unfold handlePlaceObject
      rw [if_neg (by simp [h1]), if_neg (by simp [h2]), if_neg (by simp [h3]),
        if_neg (by simp [h4])]
      exact ⟨rfl, rfl, rfl, rfl⟩
    · intro f
      unfold handlePlaceObject
      rw [if_neg (by simp [h1]), if_neg (by simp [h2]), if_neg (by simp [h3]),
        if_neg (by simp [h4])]
  · intro h1 h2 h3
    constructor
    · unfold handleGenerateGrid
      rw [if_neg h1, if_neg (by simp [h2]), if_neg (by simp [h3])]
      exact ⟨rfl, rfl, rfl, rfl⟩
    · intro f
      unfold handleGenerateGrid
      rw [if_neg h1, if_neg (by simp [h2]), if_neg (by simp [h3])]
  · intro h1
    constructor
    · unfold handleExpandImage
      rw [if_neg (by simp [h1])]
      exact ⟨rfl, rfl, rfl, rfl⟩
    · intro f
      unfold handleExpandImage
      rw [if_neg (by simp [h1])]

/-- Witness for C9 at the concrete state (all guards pass) with a rejected
call. -/
theorem generation_handlers_atomic_witness :
    AtomicFailure (handleGenerate (.error "boom") testState) testState
      "Failed to generate the image. boom" ∧
    AtomicFailure (handlePlaceObject (.error "boom") testState) testState
      "Failed to place the object. boom" ∧
    (handleGenerate (.ok 42) testState).isLoading = false :=
  ⟨((generation_handlers_atomic testState "boom" Direction.left).1 (by decide) (by decide)
      (by decide)).1,
   ((generation_handlers_atomic testState "boom" Direction.left).2.2.2.1 (by decide)
      (by decide) (by decide) (by decide)).1,
   ((generation_handlers_atomic testState "boom" Direction.left).1 (by decide) (by decide)
      (by decide)).2 42⟩

end DemoIA
